import Mathlib

/-!
Shallow embedding of the two scripts of this repository:
`convert_office_to_pdf.py` (batch conversion of Office documents to PDF,
with archiving of processed sources) and `upload_pdf_to_oci_bucket.py`
(recursive upload of a folder to an object-storage bucket).

Filesystem paths are modelled as a flag (absolute or relative) together
with the list of path components; `os.path.join`, `os.path.dirname`,
`os.path.relpath` and `os.path.splitext` are embedded with Python's
semantics (in particular, `join` discards the left operand when the right
operand is absolute, and `splitext` only splits when a non-dot character
precedes the last dot of the basename).

Each script function is embedded as a trace-producing function: external
effects (directory creation, moves, copies, the external conversion or
upload calls, log entries) become events in an output list, and the Bool
component of the result records whether the Python function raised an
exception to its caller.  The success or failure of each external
collaborator call is an oracle argument (`ok : Nat → Bool`, indexed by
attempt number for the retrying Word handler).
-/

structure PyPath where
  absolute : Bool
  comps : List String
  deriving DecidableEq, Repr

/-- `os.path.join a b`: if `b` is absolute it replaces `a`, otherwise the
components are concatenated. -/
def ospath_join (a b : PyPath) : PyPath :=
  if b.absolute then b else ⟨a.absolute, a.comps ++ b.comps⟩

/-- `os.path.dirname`: drop the last path component. -/
def ospath_dirname (p : PyPath) : PyPath :=
  ⟨p.absolute, p.comps.dropLast⟩

/-- Split a character list at its last dot: `some (before, after)` when a
dot occurs, preferring the rightmost one. -/
def splitLastDot : List Char → Option (List Char × List Char)
  | [] => none
  | c :: rest =>
    match splitLastDot rest with
    | some (pre, suf) => some (c :: pre, suf)
    | none => if c = '.' then some ([], rest) else none

/-- `os.path.splitext` on a single path component: the extension starts at
the last dot, provided some non-dot character precedes it (so `".bashrc"`
has no extension). -/
def ospath_splitext (s : String) : String × String :=
  match splitLastDot s.data with
  | some (pre, suf) =>
    if pre.any (fun c => c != '.') then (String.mk pre, String.mk ('.' :: suf))
    else (s, "")
  | none => (s, "")

/-- Python `str.lower` (ASCII, as used on file extensions). -/
def py_lower (s : String) : String :=
  String.mk (s.data.map Char.toLower)

/-- `os.path.splitext(filename)[1].lower()` as computed at line 116 of
`convert_office_to_pdf.py`. -/
def file_ext (filename : String) : String :=
  py_lower (ospath_splitext filename).2

/-- Components of `os.path.relpath`: strip the common prefix, then one
`".."` per remaining base component followed by the remaining components
of the target. -/
def relpath_comps : List String → List String → List String
  | p, [] => p
  | [], b => b.map (fun _ => "..")
  | x :: xs, y :: ys =>
    if x = y then relpath_comps xs ys
    else List.replicate (y :: ys).length ".." ++ x :: xs

/-- `os.path.relpath p base`; the result is always a relative path. -/
def ospath_relpath (p base : PyPath) : PyPath :=
  ⟨false, relpath_comps p.comps base.comps⟩

/-- `os.path.splitext(rel_path)[0] + ".pdf"` applied to the component list
of a relative path: the last component (the basename) has its extension
replaced by `".pdf"`. -/
def with_pdf_ext : List String → List String
  | [] => []
  | [f] => [(ospath_splitext f).1 ++ ".pdf"]
  | c :: rest => c :: with_pdf_ext rest

/-- `file_path = os.path.join(root, filename)` where the walk visits
`root = os.path.join(input_folder, <relative dirs>)`. -/
def file_path_of (input_folder : PyPath) (d : List String) (filename : String) : PyPath :=
  ospath_join (ospath_join input_folder ⟨false, d⟩) ⟨false, [filename]⟩

/-- `output_pdf_path = os.path.join(output_base_folder,
os.path.splitext(rel_path)[0] + ".pdf")` (line 107). -/
def output_pdf_path_of (out_base input_folder : PyPath) (d : List String)
    (filename : String) : PyPath :=
  ospath_join out_base
    ⟨false, with_pdf_ext (ospath_relpath (file_path_of input_folder d filename) input_folder).comps⟩

/-- Handler categories of `convert_office_to_pdf.py`. -/
inductive Category where
  | word
  | excel
  | powerpoint
  deriving DecidableEq, Repr

/-- Observable events of one run of `convert_office_to_pdf.py`. -/
inductive Event where
  | makedirs (dir : PyPath)
  | skipExisting (rel : PyPath)
  | skipUnsupported (rel : PyPath)
  | moveFile (src dst rel : PyPath)
  | copyFile (src dst : PyPath)
  | externalCall (cat : Category) (input output : PyPath) (attempt : Nat)
  | convertSuccess (cat : Category) (rel : PyPath)
  | convertError (cat : Category) (rel : PyPath) (attempt : Nat)
  | retryInfo (attempt : Nat)
  | finalError (rel : PyPath)
  deriving DecidableEq, Repr

/-- `move_to_processed(file_path, rel_path)` (lines 33-41): join the
processed base folder with `rel_path`, create the destination directory,
move the file (its own failures are caught and logged inside). -/
def move_to_processed (processed_base_folder file_path rel_path : PyPath) : List Event :=
  [Event.makedirs (ospath_dirname (ospath_join processed_base_folder rel_path)),
   Event.moveFile file_path (ospath_join processed_base_folder rel_path) rel_path]

/-- `copy_to_output(file_path, rel_path)` (lines 43-51): despite its name
and docstring it joins `processed_base_folder` with its second argument,
creates the destination directory and copies the file there. -/
def copy_to_output (processed_base_folder file_path rel_path : PyPath) : List Event :=
  [Event.makedirs (ospath_dirname (ospath_join processed_base_folder rel_path)),
   Event.copyFile file_path (ospath_join processed_base_folder rel_path)]

/-- The body of the `for attempt in range(3)` loop of `convert_word_to_pdf`
(lines 56-72), run over the remaining attempt indices.  `ok a` tells
whether the external COM conversion call succeeds on attempt `a`.  The
Bool result records whether the function re-raised the exception. -/
def wordAttempts (processed_base_folder : PyPath) (ok : Nat → Bool)
    (input_path output_path rel_path : PyPath) : List Nat → List Event × Bool
  | [] => ([], false)
  | a :: rest =>
    if ok a then
      ([Event.externalCall Category.word input_path output_path a,
        Event.convertSuccess Category.word rel_path]
        ++ move_to_processed processed_base_folder input_path rel_path, false)
    else
      let errs := [Event.externalCall Category.word input_path output_path a,
                   Event.convertError Category.word rel_path a,
                   Event.retryInfo a]
      if a > 3 then
        (errs ++ [Event.finalError rel_path], true)
      else
        let res := wordAttempts processed_base_folder ok input_path output_path rel_path rest
        (errs ++ res.1, res.2)

/-- `convert_word_to_pdf` (lines 53-72): try the conversion for
`attempt in range(3)`, breaking on success. -/
def convert_word_to_pdf (processed_base_folder : PyPath) (ok : Nat → Bool)
    (input_path output_path rel_path : PyPath) : List Event × Bool :=
  wordAttempts processed_base_folder ok input_path output_path rel_path (List.range 3)

/-- `convert_excel_to_pdf` (lines 74-86): one attempt, all exceptions
caught and logged. -/
def convert_excel_to_pdf (processed_base_folder : PyPath) (ok : Nat → Bool)
    (input_path output_path rel_path : PyPath) : List Event :=
  if ok 0 then
    [Event.externalCall Category.excel input_path output_path 0,
     Event.convertSuccess Category.excel rel_path]
      ++ move_to_processed processed_base_folder input_path rel_path
  else
    [Event.externalCall Category.excel input_path output_path 0,
     Event.convertError Category.excel rel_path 0]

/-- `convert_powerpoint_to_pdf` (lines 88-99): one attempt, all exceptions
caught and logged. -/
def convert_powerpoint_to_pdf (processed_base_folder : PyPath) (ok : Nat → Bool)
    (input_path output_path rel_path : PyPath) : List Event :=
  if ok 0 then
    [Event.externalCall Category.powerpoint input_path output_path 0,
     Event.convertSuccess Category.powerpoint rel_path]
      ++ move_to_processed processed_base_folder input_path rel_path
  else
    [Event.externalCall Category.powerpoint input_path output_path 0,
     Event.convertError Category.powerpoint rel_path 0]

/-- The body of the inner loop of `convert_office_files_recursively`
(lines 104-126) for one discovered file, given the relative directory `d`
and `filename` the walk reports, the oracle `destExists` for
`os.path.exists` and the oracle `ok` for the external calls of this file's
handler. -/
def processFile (out_base processed_base : PyPath) (destExists : PyPath → Bool)
    (ok : Nat → Bool) (input_folder : PyPath) (d : List String)
    (filename : String) : List Event × Bool :=
  let file_path := file_path_of input_folder d filename
  let rel_path := ospath_relpath file_path input_folder
  let out_pdf := output_pdf_path_of out_base input_folder d filename
  let pre : List Event := [Event.makedirs (ospath_dirname out_pdf)]
  if destExists out_pdf then
    (pre ++ [Event.skipExisting rel_path]
        ++ move_to_processed processed_base file_path rel_path, false)
  else
    let fe := file_ext filename
    if fe ∈ [".doc", ".docx"] then
      let res := convert_word_to_pdf processed_base ok file_path out_pdf rel_path
      (pre ++ res.1, res.2)
    else if fe ∈ [".xls", ".xlsx"] then
      (pre ++ convert_excel_to_pdf processed_base ok file_path out_pdf rel_path, false)
    else if fe ∈ [".ppt", ".pptx"] then
      (pre ++ convert_powerpoint_to_pdf processed_base ok file_path out_pdf rel_path, false)
    else
      (pre ++ [Event.skipUnsupported rel_path]
          ++ copy_to_output processed_base file_path out_pdf
          ++ move_to_processed processed_base file_path rel_path, false)

/-- `convert_office_files_recursively` (lines 101-126) over the list of
files the walk discovers, each given as (relative directories, filename).
An uncaught exception from a handler would abort the remaining traversal,
so the Bool result propagates. -/
def convert_office_files_recursively (out_base processed_base : PyPath)
    (destExists : PyPath → Bool) (oks : List String → String → Nat → Bool)
    (input_folder : PyPath) : List (List String × String) → List Event × Bool
  | [] => ([], false)
  | (d, f) :: rest =>
    let res := processFile out_base processed_base destExists (oks d f) input_folder d f
    if res.2 then (res.1, true)
    else
      let res2 := convert_office_files_recursively out_base processed_base destExists
        oks input_folder rest
      (res.1 ++ res2.1, res2.2)

/-- Observable events of one run of `upload_pdf_to_oci_bucket.py`. -/
inductive UEvent where
  | bucketCheck
  | bucketError
  | printUploading (file_path object_name : PyPath)
  | putObject (file_path object_name : PyPath)
  deriving DecidableEq, Repr

/-- The walk-and-upload loop of `upload_to_oci` (lines 18-31).  There is no
try/except around `put_object`, so a failing upload raises out of the loop:
the Bool result records that, and no later file is visited. -/
def uploadWalk (uploadOk : List String → String → Bool) (folder_path : PyPath) :
    List (List String × String) → List UEvent × Bool
  | [] => ([], false)
  | (d, f) :: rest =>
    let file_path := file_path_of folder_path d f
    let object_name := ospath_relpath file_path folder_path
    let evs := [UEvent.printUploading file_path object_name,
                UEvent.putObject file_path object_name]
    if uploadOk d f then
      let res := uploadWalk uploadOk folder_path rest
      (evs ++ res.1, res.2)
    else (evs, true)

/-- `upload_to_oci` (lines 6-31): check the bucket first (returning early
on a service error), then walk the folder and upload each file. -/
def upload_to_oci (bucketOk : Bool) (uploadOk : List String → String → Bool)
    (folder_path : PyPath) (files : List (List String × String)) : List UEvent × Bool :=
  if bucketOk then
    let res := uploadWalk uploadOk folder_path files
    (UEvent.bucketCheck :: res.1, res.2)
  else ([UEvent.bucketCheck, UEvent.bucketError], false)

/-- Recognizer for archive-move events. -/
def isMoveFile : Event → Bool
  | Event.moveFile _ _ _ => true
  | _ => false

/-- Recognizer for external handler calls. -/
def isExternalCall : Event → Bool
  | Event.externalCall _ _ _ _ => true
  | _ => false

/-- Recognizer for error log entries emitted by a failing handler. -/
def isErrorEvent : Event → Bool
  | Event.convertError _ _ _ => true
  | Event.finalError _ => true
  | _ => false

/-- Recognizer for the final escalation error of `convert_word_to_pdf`. -/
def isFinalError : Event → Bool
  | Event.finalError _ => true
  | _ => false

/-- Recognizer for upload calls. -/
def isPutObject : UEvent → Bool
  | UEvent.putObject _ _ => true
  | _ => false

theorem relpath_comps_append (b r : List String) : relpath_comps (b ++ r) b = r := by
  induction b with
  | nil => cases r <;> rfl
  | cons y ys ih => simpa [relpath_comps] using ih

theorem file_path_of_comps (input : PyPath) (d : List String) (f : String) :
    file_path_of input d f = ⟨input.absolute, input.comps ++ (d ++ [f])⟩ := by
  simp [file_path_of, ospath_join]

theorem rel_path_of_file (input : PyPath) (d : List String) (f : String) :
    ospath_relpath (file_path_of input d f) input = ⟨false, d ++ [f]⟩ := by
  simp [file_path_of_comps, ospath_relpath, relpath_comps_append]

theorem wordAttempts_no_raise (pb : PyPath) (ok : Nat → Bool) (i o r : PyPath) :
    ∀ l : List Nat, (∀ a ∈ l, a ≤ 3) →
      (wordAttempts pb ok i o r l).2 = false
      ∧ (wordAttempts pb ok i o r l).1.countP isFinalError = 0 := by
  intro l
  induction l with
  | nil => intro _; simp [wordAttempts]
  | cons a rest ih =>
    intro h
    have ha : ¬ a > 3 := by
      have := h a (by simp)
      omega
    cases hok : ok a with
    | true =>
      simp [wordAttempts, hok, move_to_processed, isFinalError, List.countP_cons]
    | false =>
      have ihr := ih (fun b hb => h b (by simp [hb]))
      simp [wordAttempts, hok, ha, List.countP_append, List.countP_cons, isFinalError, ihr]

theorem wordAttempts_moves_le_one (pb : PyPath) (ok : Nat → Bool) (i o r : PyPath) :
    ∀ l : List Nat, (wordAttempts pb ok i o r l).1.countP isMoveFile ≤ 1 := by
  intro l
  induction l with
  | nil => simp [wordAttempts]
  | cons a rest ih =>
    cases hok : ok a with
    | true =>
      simp [wordAttempts, hok, move_to_processed, isMoveFile, List.countP_cons]
    | false =>
      by_cases ha : a > 3
      · simp [wordAttempts, hok, ha, isMoveFile, List.countP_append, List.countP_cons]
      · simpa [wordAttempts, hok, ha, isMoveFile, List.countP_append, List.countP_cons] using ih

theorem wordAttempts_allfail (pb : PyPath) (ok : Nat → Bool) (i o r : PyPath)
    (hok : ∀ n, ok n = false) :
    ∀ l : List Nat, (∀ a ∈ l, a ≤ 3) →
      (wordAttempts pb ok i o r l).1.countP isMoveFile = 0
      ∧ (wordAttempts pb ok i o r l).1.countP isExternalCall = l.length
      ∧ (wordAttempts pb ok i o r l).1.countP isErrorEvent = l.length := by
  intro l
  induction l with
  | nil => intro _; simp [wordAttempts]
  | cons a rest ih =>
    intro h
    have ha : ¬ a > 3 := by
      have := h a (by simp)
      omega
    have ihr := ih (fun b hb => h b (by simp [hb]))
    simp [wordAttempts, hok a, ha, List.countP_append, List.countP_cons,
      isMoveFile, isExternalCall, isErrorEvent, ihr]

theorem wordAttempts_move_mem (pb : PyPath) (ok : Nat → Bool) (i o r : PyPath) :
    ∀ (l : List Nat) (src dst rel : PyPath),
      Event.moveFile src dst rel ∈ (wordAttempts pb ok i o r l).1 →
        src = i ∧ dst = ospath_join pb r ∧ rel = r
        ∧ List.Sublist
            [Event.makedirs (ospath_dirname (ospath_join pb r)),
             Event.moveFile i (ospath_join pb r) r] (wordAttempts pb ok i o r l).1 := by
  intro l
  induction l with
  | nil => intro src dst rel h; simp [wordAttempts] at h
  | cons a rest ih =>
    intro src dst rel h
    cases hok : ok a with
    | true =>
      have e1 : (wordAttempts pb ok i o r (a :: rest)).1
          = [Event.externalCall Category.word i o a,
             Event.convertSuccess Category.word r,
             Event.makedirs (ospath_dirname (ospath_join pb r)),
             Event.moveFile i (ospath_join pb r) r] := by
        simp [wordAttempts, hok, move_to_processed]
      rw [e1] at h ⊢
      simp only [List.mem_cons, List.not_mem_nil, or_false] at h
      rcases h with h | h | h | h
      · exact absurd h (by simp)
      · exact absurd h (by simp)
      · exact absurd h (by simp)
      · obtain ⟨h1, h2, h3⟩ := Event.moveFile.inj h
        exact ⟨h1, h2, h3, ((List.Sublist.refl _).cons _).cons _⟩
    | false =>
      by_cases ha : a > 3
      · exact absurd h (by simp [wordAttempts, hok, ha])
      · have e1 : (wordAttempts pb ok i o r (a :: rest)).1
            = [Event.externalCall Category.word i o a,
               Event.convertError Category.word r a,
               Event.retryInfo a] ++ (wordAttempts pb ok i o r rest).1 := by
          simp [wordAttempts, hok, ha]
        rw [e1] at h ⊢
        simp only [List.cons_append, List.nil_append, List.mem_cons] at h
        have h' : Event.moveFile src dst rel ∈ (wordAttempts pb ok i o r rest).1 := by
          rcases h with h | h | h | h
          · exact absurd h (by simp)
          · exact absurd h (by simp)
          · exact absurd h (by simp)
          · exact h
        obtain ⟨h1, h2, h3, h4⟩ := ih src dst rel h'
        exact ⟨h1, h2, h3, h4.trans (List.sublist_append_right _ _)⟩

theorem processFile_no_raise (out_base processed_base : PyPath)
    (destExists : PyPath → Bool) (ok : Nat → Bool) (input_folder : PyPath)
    (d : List String) (filename : String) :
    (processFile out_base processed_base destExists ok input_folder d filename).2 = false := by
  have hw := wordAttempts_no_raise processed_base ok
    (file_path_of input_folder d filename)
    (output_pdf_path_of out_base input_folder d filename)
    (ospath_relpath (file_path_of input_folder d filename) input_folder)
    (List.range 3) (by intro a ha; simp [List.mem_range] at ha; omega)
  by_cases hde : destExists (output_pdf_path_of out_base input_folder d filename)
  · simp [processFile, hde]
  · by_cases h1 : file_ext filename ∈ [".doc", ".docx"]
    · simp [processFile, hde, h1, convert_word_to_pdf, hw.1]
    · by_cases h2 : file_ext filename ∈ [".xls", ".xlsx"]
      · simp [processFile, hde, h1, h2]
      · by_cases h3 : file_ext filename ∈ [".ppt", ".pptx"]
        · simp [processFile, hde, h1, h2, h3]
        · simp [processFile, hde, h1, h2, h3]

theorem run_cons (out_base processed_base : PyPath) (destExists : PyPath → Bool)
    (oks : List String → String → Nat → Bool) (input_folder : PyPath)
    (d : List String) (f : String) (rest : List (List String × String)) :
    convert_office_files_recursively out_base processed_base destExists oks input_folder
        ((d, f) :: rest)
      = ((processFile out_base processed_base destExists (oks d f) input_folder d f).1
          ++ (convert_office_files_recursively out_base processed_base destExists oks
                input_folder rest).1,
         (convert_office_files_recursively out_base processed_base destExists oks
            input_folder rest).2) := by
  simp [convert_office_files_recursively, processFile_no_raise]

theorem processFile_move_mem (out_base pb : PyPath) (destExists : PyPath → Bool)
    (ok : Nat → Bool) (input : PyPath) (d : List String) (f : String)
    (src dst rel : PyPath)
    (h : Event.moveFile src dst rel ∈ (processFile out_base pb destExists ok input d f).1) :
    src = file_path_of input d f
    ∧ rel = ospath_relpath (file_path_of input d f) input
    ∧ dst = ospath_join pb rel
    ∧ List.Sublist [Event.makedirs (ospath_dirname dst), Event.moveFile src dst rel]
        (processFile out_base pb destExists ok input d f).1 := by
  by_cases hde : destExists (output_pdf_path_of out_base input d f)
  · have e1 : (processFile out_base pb destExists ok input d f).1
        = [Event.makedirs (ospath_dirname (output_pdf_path_of out_base input d f)),
           Event.skipExisting (ospath_relpath (file_path_of input d f) input),
           Event.makedirs (ospath_dirname
             (ospath_join pb (ospath_relpath (file_path_of input d f) input))),
           Event.moveFile (file_path_of input d f)
             (ospath_join pb (ospath_relpath (file_path_of input d f) input))
             (ospath_relpath (file_path_of input d f) input)] := by
      simp [processFile, hde, move_to_processed]
    rw [e1] at h ⊢
    simp only [List.mem_cons, List.not_mem_nil, or_false] at h
    rcases h with h | h | h | h
    · exact absurd h (by simp)
    · exact absurd h (by simp)
    · exact absurd h (by simp)
    · obtain ⟨h1, h2, h3⟩ := Event.moveFile.inj h
      subst h1; subst h2; subst h3
      exact ⟨rfl, rfl, rfl, ((List.Sublist.refl _).cons _).cons _⟩
  · by_cases h1 : file_ext f ∈ [".doc", ".docx"]
    · have e1 : (processFile out_base pb destExists ok input d f).1
          = Event.makedirs (ospath_dirname (output_pdf_path_of out_base input d f))
            :: (convert_word_to_pdf pb ok (file_path_of input d f)
                  (output_pdf_path_of out_base input d f)
                  (ospath_relpath (file_path_of input d f) input)).1 := by
        simp [processFile, hde, h1]
      rw [e1] at h ⊢
      simp only [List.mem_cons] at h
      rcases h with h | h
      · exact absurd h (by simp)
      · obtain ⟨g1, g2, g3, g4⟩ := wordAttempts_move_mem pb ok (file_path_of input d f)
          (output_pdf_path_of out_base input d f)
          (ospath_relpath (file_path_of input d f) input) (List.range 3) src dst rel h
        subst g1; subst g2; subst g3
        exact ⟨rfl, rfl, rfl, g4.cons _⟩
    · by_cases h2 : file_ext f ∈ [".xls", ".xlsx"]
      · cases hok : ok 0 with
        | true =>
          have e1 : (processFile out_base pb destExists ok input d f).1
              = [Event.makedirs (ospath_dirname (output_pdf_path_of out_base input d f)),
                 Event.externalCall Category.excel (file_path_of input d f)
                   (output_pdf_path_of out_base input d f) 0,
                 Event.convertSuccess Category.excel
                   (ospath_relpath (file_path_of input d f) input),
                 Event.makedirs (ospath_dirname
                   (ospath_join pb (ospath_relpath (file_path_of input d f) input))),
                 Event.moveFile (file_path_of input d f)
                   (ospath_join pb (ospath_relpath (file_path_of input d f) input))
                   (ospath_relpath (file_path_of input d f) input)] := by
            simp [processFile, hde, h1, h2, convert_excel_to_pdf, hok, move_to_processed]
          rw [e1] at h ⊢
          simp only [List.mem_cons, List.not_mem_nil, or_false] at h
          rcases h with h | h | h | h | h
          · exact absurd h (by simp)
          · exact absurd h (by simp)
          · exact absurd h (by simp)
          · exact absurd h (by simp)
          · obtain ⟨g1, g2, g3⟩ := Event.moveFile.inj h
            subst g1; subst g2; subst g3
            exact ⟨rfl, rfl, rfl, (((List.Sublist.refl _).cons _).cons _).cons _⟩
        | false =>
          exact absurd h (by simp [processFile, hde, h1, h2, convert_excel_to_pdf, hok])
      · by_cases h3 : file_ext f ∈ [".ppt", ".pptx"]
        · cases hok : ok 0 with
          | true =>
            have e1 : (processFile out_base pb destExists ok input d f).1
                = [Event.makedirs (ospath_dirname (output_pdf_path_of out_base input d f)),
                   Event.externalCall Category.powerpoint (file_path_of input d f)
                     (output_pdf_path_of out_base input d f) 0,
                   Event.convertSuccess Category.powerpoint
                     (ospath_relpath (file_path_of input d f) input),
                   Event.makedirs (ospath_dirname
                     (ospath_join pb (ospath_relpath (file_path_of input d f) input))),
                   Event.moveFile (file_path_of input d f)
                     (ospath_join pb (ospath_relpath (file_path_of input d f) input))
                     (ospath_relpath (file_path_of input d f) input)] := by
              simp [processFile, hde, h1, h2, h3, convert_powerpoint_to_pdf, hok,
                move_to_processed]
            rw [e1] at h ⊢
            simp only [List.mem_cons, List.not_mem_nil, or_false] at h
            rcases h with h | h | h | h | h
            · exact absurd h (by simp)
            · exact absurd h (by simp)
            · exact absurd h (by simp)
            · exact absurd h (by simp)
            · obtain ⟨g1, g2, g3⟩ := Event.moveFile.inj h
              subst g1; subst g2; subst g3
              exact ⟨rfl, rfl, rfl, (((List.Sublist.refl _).cons _).cons _).cons _⟩
          | false =>
            exact absurd h (by simp [processFile, hde, h1, h2, h3,
              convert_powerpoint_to_pdf, hok])
        · have e1 : (processFile out_base pb destExists ok input d f).1
              = [Event.makedirs (ospath_dirname (output_pdf_path_of out_base input d f)),
                 Event.skipUnsupported (ospath_relpath (file_path_of input d f) input),
                 Event.makedirs (ospath_dirname
                   (ospath_join pb (output_pdf_path_of out_base input d f))),
                 Event.copyFile (file_path_of input d f)
                   (ospath_join pb (output_pdf_path_of out_base input d f)),
                 Event.makedirs (ospath_dirname
                   (ospath_join pb (ospath_relpath (file_path_of input d f) input))),
                 Event.moveFile (file_path_of input d f)
                   (ospath_join pb (ospath_relpath (file_path_of input d f) input))
                   (ospath_relpath (file_path_of input d f) input)] := by
            simp [processFile, hde, h1, h2, h3, copy_to_output, move_to_processed]
          rw [e1] at h ⊢
          simp only [List.mem_cons, List.not_mem_nil, or_false] at h
          rcases h with h | h | h | h | h | h
          · exact absurd h (by simp)
          · exact absurd h (by simp)
          · exact absurd h (by simp)
          · exact absurd h (by simp)
          · exact absurd h (by simp)
          · obtain ⟨g1, g2, g3⟩ := Event.moveFile.inj h
            subst g1; subst g2; subst g3
            exact ⟨rfl, rfl, rfl,
              ((((List.Sublist.refl _).cons _).cons _).cons _).cons _⟩

theorem run_move_mem (out_base pb : PyPath) (destExists : PyPath → Bool)
    (oks : List String → String → Nat → Bool) (input : PyPath) :
    ∀ (files : List (List String × String)) (src dst rel : PyPath),
      Event.moveFile src dst rel
          ∈ (convert_office_files_recursively out_base pb destExists oks input files).1 →
        rel = ospath_relpath src input
        ∧ dst = ospath_join pb rel
        ∧ (∃ d f, (d, f) ∈ files ∧ src = file_path_of input d f)
        ∧ List.Sublist [Event.makedirs (ospath_dirname dst), Event.moveFile src dst rel]
            (convert_office_files_recursively out_base pb destExists oks input files).1 := by
  intro files
  induction files with
  | nil =>
    intro src dst rel h
    simp [convert_office_files_recursively] at h
  | cons p rest ih =>
    intro src dst rel h
    obtain ⟨d, f⟩ := p
    rw [run_cons] at h ⊢
    simp only [List.mem_append] at h
    rcases h with h | h
    · obtain ⟨g1, g2, g3, g4⟩ := processFile_move_mem out_base pb destExists (oks d f)
        input d f src dst rel h
      subst g1; subst g2; subst g3
      exact ⟨rfl, rfl, ⟨d, f, by simp, rfl⟩,
        g4.trans (List.sublist_append_left _ _)⟩
    · obtain ⟨g1, g2, g3, g4⟩ := ih src dst rel h
      obtain ⟨d', f', hmem, hsrc⟩ := g3
      exact ⟨g1, g2, ⟨d', f', by simp [hmem], hsrc⟩,
        g4.trans (List.sublist_append_right _ _)⟩

/-- C1: behavior of the processor on an unsupported file (`readme.txt` at
the top of the input tree, with absolute roots `/in`, `/out`, `/arch` and
no pre-existing destination).  The file is NOT copied to the output root
joined with its input-relative path (`/out/readme.txt`): because line 125
passes `output_pdf_path` to `copy_to_output`, which joins it onto
`processed_base_folder`, the copy lands at `/out/readme.pdf` (the `.pdf`
renamed destination).  The subsequent archive move is as the claim says. -/
theorem claim_C1_unsupported_copy_destination :
    processFile ⟨true, ["out"]⟩ ⟨true, ["arch"]⟩ (fun _ => false) (fun _ => true)
        ⟨true, ["in"]⟩ [] "readme.txt"
      = ([Event.makedirs ⟨true, ["out"]⟩,
          Event.skipUnsupported ⟨false, ["readme.txt"]⟩,
          Event.makedirs ⟨true, ["out"]⟩,
          Event.copyFile ⟨true, ["in", "readme.txt"]⟩ ⟨true, ["out", "readme.pdf"]⟩,
          Event.makedirs ⟨true, ["arch"]⟩,
          Event.moveFile ⟨true, ["in", "readme.txt"]⟩ ⟨true, ["arch", "readme.txt"]⟩
            ⟨false, ["readme.txt"]⟩], false) := by
  decide

/-- C3: if the computed destination in the converted-output tree already
exists, the processor logs a skip and archives the source (move to the
archive root under the same relative path); no handler is invoked and no
external conversion call happens. -/
theorem claim_C3_skip_existing_dest (out_base pb : PyPath) (destExists : PyPath → Bool)
    (ok : Nat → Bool) (input : PyPath) (d : List String) (f : String)
    (hde : destExists (output_pdf_path_of out_base input d f) = true) :
    processFile out_base pb destExists ok input d f
      = ([Event.makedirs (ospath_dirname (output_pdf_path_of out_base input d f)),
          Event.skipExisting (ospath_relpath (file_path_of input d f) input),
          Event.makedirs (ospath_dirname
            (ospath_join pb (ospath_relpath (file_path_of input d f) input))),
          Event.moveFile (file_path_of input d f)
            (ospath_join pb (ospath_relpath (file_path_of input d f) input))
            (ospath_relpath (file_path_of input d f) input)], false)
    ∧ (processFile out_base pb destExists ok input d f).1.countP isExternalCall = 0 := by
  constructor
  · simp [processFile, hde, move_to_processed]
  · simp [processFile, hde, move_to_processed, isExternalCall, List.countP_cons]

/-- Witness for C3 at a concrete input whose destination already exists. -/
theorem claim_C3_witness :
    processFile ⟨true, ["out"]⟩ ⟨true, ["arch"]⟩ (fun _ => true) (fun _ => false)
        ⟨true, ["in"]⟩ ["a"] "r.docx"
      = ([Event.makedirs (ospath_dirname
            (output_pdf_path_of ⟨true, ["out"]⟩ ⟨true, ["in"]⟩ ["a"] "r.docx")),
          Event.skipExisting (ospath_relpath
            (file_path_of ⟨true, ["in"]⟩ ["a"] "r.docx") ⟨true, ["in"]⟩),
          Event.makedirs (ospath_dirname (ospath_join ⟨true, ["arch"]⟩
            (ospath_relpath (file_path_of ⟨true, ["in"]⟩ ["a"] "r.docx") ⟨true, ["in"]⟩))),
          Event.moveFile (file_path_of ⟨true, ["in"]⟩ ["a"] "r.docx")
            (ospath_join ⟨true, ["arch"]⟩
              (ospath_relpath (file_path_of ⟨true, ["in"]⟩ ["a"] "r.docx") ⟨true, ["in"]⟩))
            (ospath_relpath (file_path_of ⟨true, ["in"]⟩ ["a"] "r.docx") ⟨true, ["in"]⟩)],
         false)
    ∧ (processFile ⟨true, ["out"]⟩ ⟨true, ["arch"]⟩ (fun _ => true) (fun _ => false)
        ⟨true, ["in"]⟩ ["a"] "r.docx").1.countP isExternalCall = 0 :=
  claim_C3_skip_existing_dest ⟨true, ["out"]⟩ ⟨true, ["arch"]⟩ (fun _ => true)
    (fun _ => false) ⟨true, ["in"]⟩ ["a"] "r.docx" rfl

/-- C4: on a persistently failing input the Word handler makes at most 3
external conversion calls (in fact exactly 3), while the Excel and
PowerPoint handlers make exactly one. -/
theorem claim_C4_retry_bounds (pb i o r : PyPath) (ok : Nat → Bool)
    (hok : ∀ n, ok n = false) :
    (convert_word_to_pdf pb ok i o r).1.countP isExternalCall ≤ 3
    ∧ (convert_excel_to_pdf pb ok i o r).countP isExternalCall = 1
    ∧ (convert_powerpoint_to_pdf pb ok i o r).countP isExternalCall = 1 := by
  have hw := wordAttempts_allfail pb ok i o r hok (List.range 3)
    (by intro a ha; simp [List.mem_range] at ha; omega)
  refine ⟨?_, ?_, ?_⟩
  · simp [convert_word_to_pdf, hw.2.1]
  · simp [convert_excel_to_pdf, hok 0, isExternalCall, List.countP_cons]
  · simp [convert_powerpoint_to_pdf, hok 0, isExternalCall, List.countP_cons]

/-- Witness for C4 with an always-failing external collaborator. -/
theorem claim_C4_witness :
    (convert_word_to_pdf ⟨true, ["arch"]⟩ (fun _ => false) ⟨true, ["in", "a.doc"]⟩
        ⟨true, ["out", "a.pdf"]⟩ ⟨false, ["a.doc"]⟩).1.countP isExternalCall ≤ 3
    ∧ (convert_excel_to_pdf ⟨true, ["arch"]⟩ (fun _ => false) ⟨true, ["in", "a.doc"]⟩
        ⟨true, ["out", "a.pdf"]⟩ ⟨false, ["a.doc"]⟩).countP isExternalCall = 1
    ∧ (convert_powerpoint_to_pdf ⟨true, ["arch"]⟩ (fun _ => false) ⟨true, ["in", "a.doc"]⟩
        ⟨true, ["out", "a.pdf"]⟩ ⟨false, ["a.doc"]⟩).countP isExternalCall = 1 :=
  claim_C4_retry_bounds ⟨true, ["arch"]⟩ ⟨true, ["in", "a.doc"]⟩ ⟨true, ["out", "a.pdf"]⟩
    ⟨false, ["a.doc"]⟩ (fun _ => false) (fun _ => rfl)

/-- C5: processing one discovered file never raises past the traversal
loop, and performs at most one archive move, so the file ends in exactly
one terminal state (archived, or retained in the input tree). -/
theorem claim_C5_single_terminal_state (out_base pb : PyPath) (destExists : PyPath → Bool)
    (ok : Nat → Bool) (input : PyPath) (d : List String) (f : String) :
    (processFile out_base pb destExists ok input d f).2 = false
    ∧ (processFile out_base pb destExists ok input d f).1.countP isMoveFile ≤ 1 := by
  refine ⟨processFile_no_raise out_base pb destExists ok input d f, ?_⟩
  by_cases hde : destExists (output_pdf_path_of out_base input d f)
  · simp [processFile, hde, move_to_processed, isMoveFile, List.countP_cons]
  · have hw := wordAttempts_moves_le_one pb ok (file_path_of input d f)
      (output_pdf_path_of out_base input d f)
      (ospath_relpath (file_path_of input d f) input) (List.range 3)
    by_cases h1 : file_ext f ∈ [".doc", ".docx"]
    · simpa [processFile, hde, h1, convert_word_to_pdf, isMoveFile,
        List.countP_append, List.countP_cons] using hw
    · by_cases h2 : file_ext f ∈ [".xls", ".xlsx"]
      · cases hok : ok 0 with
        | true =>
          simp [processFile, hde, h1, h2, convert_excel_to_pdf, hok,
            move_to_processed, isMoveFile, List.countP_append, List.countP_cons]
        | false =>
          simp [processFile, hde, h1, h2, convert_excel_to_pdf, hok,
            isMoveFile, List.countP_append, List.countP_cons]
      · by_cases h3 : file_ext f ∈ [".ppt", ".pptx"]
        · cases hok : ok 0 with
          | true =>
            simp [processFile, hde, h1, h2, h3, convert_powerpoint_to_pdf, hok,
              move_to_processed, isMoveFile, List.countP_append, List.countP_cons]
          | false =>
            simp [processFile, hde, h1, h2, h3, convert_powerpoint_to_pdf, hok,
              isMoveFile, List.countP_append, List.countP_cons]
        · simp [processFile, hde, h1, h2, h3, copy_to_output, move_to_processed,
            isMoveFile, List.countP_append, List.countP_cons]

/-- C6: the escalation branch of `convert_word_to_pdf` guarded by
`attempt > 3` is unreachable: whatever the external collaborator does, the
function never re-raises and never emits the final failure log entry,
because the loop indices 0, 1, 2 never satisfy the guard. -/
theorem claim_C6_escalation_unreachable (pb : PyPath) (ok : Nat → Bool) (i o r : PyPath) :
    (convert_word_to_pdf pb ok i o r).2 = false
    ∧ (convert_word_to_pdf pb ok i o r).1.countP isFinalError = 0 := by
  have hw := wordAttempts_no_raise pb ok i o r (List.range 3)
    (by intro a ha; simp [List.mem_range] at ha; omega)
  simpa [convert_word_to_pdf] using hw

/-- C10: if the initial bucket-existence check fails, `upload_to_oci`
returns after logging the bucket error, without attempting any per-file
upload. -/
theorem claim_C10_bucket_failure_no_uploads (uploadOk : List String → String → Bool)
    (folder : PyPath) (files : List (List String × String)) :
    upload_to_oci false uploadOk folder files
      = ([UEvent.bucketCheck, UEvent.bucketError], false)
    ∧ (upload_to_oci false uploadOk folder files).1.countP isPutObject = 0 := by
  constructor
  · simp [upload_to_oci]
  · simp [upload_to_oci, isPutObject, List.countP_cons]

/-- C2: when the external transformation fails on every attempt, no
handler (Word, Excel or PowerPoint) raises past the traversal loop, the
source is not archived, at least one error log entry is emitted, and the
traversal continues with the remaining files. -/
theorem claim_C2_handler_failure_is_contained (out_base pb : PyPath)
    (destExists : PyPath → Bool) (oks : List String → String → Nat → Bool)
    (input : PyPath) (d : List String) (f : String)
    (rest : List (List String × String))
    (hok : ∀ n, oks d f n = false)
    (hde : destExists (output_pdf_path_of out_base input d f) = false)
    (hext : file_ext f ∈ [".doc", ".docx", ".xls", ".xlsx", ".ppt", ".pptx"]) :
    (processFile out_base pb destExists (oks d f) input d f).2 = false
    ∧ (processFile out_base pb destExists (oks d f) input d f).1.countP isMoveFile = 0
    ∧ 0 < (processFile out_base pb destExists (oks d f) input d f).1.countP isErrorEvent
    ∧ convert_office_files_recursively out_base pb destExists oks input ((d, f) :: rest)
        = ((processFile out_base pb destExists (oks d f) input d f).1
            ++ (convert_office_files_recursively out_base pb destExists oks input rest).1,
           (convert_office_files_recursively out_base pb destExists oks input rest).2) := by
  have key : (processFile out_base pb destExists (oks d f) input d f).1.countP isMoveFile = 0
      ∧ 0 < (processFile out_base pb destExists (oks d f) input d f).1.countP isErrorEvent := by
    have hw := wordAttempts_allfail pb (oks d f) (file_path_of input d f)
      (output_pdf_path_of out_base input d f)
      (ospath_relpath (file_path_of input d f) input) hok (List.range 3)
      (by intro a ha; simp [List.mem_range] at ha; omega)
    simp only [List.mem_cons, List.not_mem_nil, or_false] at hext
    rcases hext with he | he | he | he | he | he
    · have h1 : file_ext f ∈ [".doc", ".docx"] := by simp [he]
      constructor
      · simp [processFile, hde, h1, convert_word_to_pdf, List.countP_append,
          List.countP_cons, isMoveFile, hw.1]
      · simp [processFile, hde, h1, convert_word_to_pdf, List.countP_append,
          List.countP_cons, isErrorEvent, hw.2.2]
    · have h1 : file_ext f ∈ [".doc", ".docx"] := by simp [he]
      constructor
      · simp [processFile, hde, h1, convert_word_to_pdf, List.countP_append,
          List.countP_cons, isMoveFile, hw.1]
      · simp [processFile, hde, h1, convert_word_to_pdf, List.countP_append,
          List.countP_cons, isErrorEvent, hw.2.2]
    · have h1 : ¬ file_ext f ∈ [".doc", ".docx"] := by simp [he]
      have h2 : file_ext f ∈ [".xls", ".xlsx"] := by simp [he]
      constructor <;>
        simp [processFile, hde, h1, h2, convert_excel_to_pdf, hok 0,
          isMoveFile, isErrorEvent, List.countP_append, List.countP_cons]
    · have h1 : ¬ file_ext f ∈ [".doc", ".docx"] := by simp [he]
      have h2 : file_ext f ∈ [".xls", ".xlsx"] := by simp [he]
      constructor <;>
        simp [processFile, hde, h1, h2, convert_excel_to_pdf, hok 0,
          isMoveFile, isErrorEvent, List.countP_append, List.countP_cons]
    · have h1 : ¬ file_ext f ∈ [".doc", ".docx"] := by simp [he]
      have h2 : ¬ file_ext f ∈ [".xls", ".xlsx"] := by simp [he]
      have h3 : file_ext f ∈ [".ppt", ".pptx"] := by simp [he]
      constructor <;>
        simp [processFile, hde, h1, h2, h3, convert_powerpoint_to_pdf, hok 0,
          isMoveFile, isErrorEvent, List.countP_append, List.countP_cons]
    · have h1 : ¬ file_ext f ∈ [".doc", ".docx"] := by simp [he]
      have h2 : ¬ file_ext f ∈ [".xls", ".xlsx"] := by simp [he]
      have h3 : file_ext f ∈ [".ppt", ".pptx"] := by simp [he]
      constructor <;>
        simp [processFile, hde, h1, h2, h3, convert_powerpoint_to_pdf, hok 0,
          isMoveFile, isErrorEvent, List.countP_append, List.countP_cons]
  exact ⟨processFile_no_raise out_base pb destExists (oks d f) input d f, key.1, key.2,
    run_cons out_base pb destExists oks input d f rest⟩

/-- Witness for C2: a Word document whose conversion always fails. -/
theorem claim_C2_witness :
    (processFile ⟨true, ["o"]⟩ ⟨true, ["p"]⟩ (fun _ => false)
        ((fun _ _ _ => false) ([] : List String) "a.doc") ⟨true, ["i"]⟩ [] "a.doc").2 = false
    ∧ (processFile ⟨true, ["o"]⟩ ⟨true, ["p"]⟩ (fun _ => false)
        ((fun _ _ _ => false) ([] : List String) "a.doc") ⟨true, ["i"]⟩ []
        "a.doc").1.countP isMoveFile = 0
    ∧ 0 < (processFile ⟨true, ["o"]⟩ ⟨true, ["p"]⟩ (fun _ => false)
        ((fun _ _ _ => false) ([] : List String) "a.doc") ⟨true, ["i"]⟩ []
        "a.doc").1.countP isErrorEvent
    ∧ convert_office_files_recursively ⟨true, ["o"]⟩ ⟨true, ["p"]⟩ (fun _ => false)
        (fun _ _ _ => false) ⟨true, ["i"]⟩ [([], "a.doc")]
        = ((processFile ⟨true, ["o"]⟩ ⟨true, ["p"]⟩ (fun _ => false)
            ((fun _ _ _ => false) ([] : List String) "a.doc") ⟨true, ["i"]⟩ [] "a.doc").1
            ++ (convert_office_files_recursively ⟨true, ["o"]⟩ ⟨true, ["p"]⟩ (fun _ => false)
                  (fun _ _ _ => false) ⟨true, ["i"]⟩ []).1,
           (convert_office_files_recursively ⟨true, ["o"]⟩ ⟨true, ["p"]⟩ (fun _ => false)
              (fun _ _ _ => false) ⟨true, ["i"]⟩ []).2) :=
  claim_C2_handler_failure_is_contained ⟨true, ["o"]⟩ ⟨true, ["p"]⟩ (fun _ => false)
    (fun _ _ _ => false) ⟨true, ["i"]⟩ [] "a.doc" [] (fun _ => rfl) rfl (by decide)

/-- C7 counterexample: with two files in the walk and the first upload
failing, `upload_to_oci` raises (second component `true`) and only one
`putObject` call is made: the remaining file is never attempted, so a
per-file upload failure does abort the traversal. -/
theorem claim_C7_counterexample :
    upload_to_oci true (fun _ g => g == "b.pdf") ⟨true, ["f"]⟩ [([], "a.pdf"), ([], "b.pdf")]
      = ([UEvent.bucketCheck,
          UEvent.printUploading ⟨true, ["f", "a.pdf"]⟩ ⟨false, ["a.pdf"]⟩,
          UEvent.putObject ⟨true, ["f", "a.pdf"]⟩ ⟨false, ["a.pdf"]⟩], true)
    ∧ (upload_to_oci true (fun _ g => g == "b.pdf") ⟨true, ["f"]⟩
        [([], "a.pdf"), ([], "b.pdf")]).1.countP isPutObject = 1 := by
  decide

/-- C7 (amended): a failure while uploading one file propagates out of
`upload_to_oci` (aborting the traversal), and the files after the failing
one in the walk are not attempted. -/
theorem claim_C7_amended_upload_failure_aborts (uploadOk : List String → String → Bool)
    (folder : PyPath) (d : List String) (f : String)
    (rest : List (List String × String)) (h : uploadOk d f = false) :
    upload_to_oci true uploadOk folder ((d, f) :: rest)
      = ([UEvent.bucketCheck,
          UEvent.printUploading (file_path_of folder d f)
            (ospath_relpath (file_path_of folder d f) folder),
          UEvent.putObject (file_path_of folder d f)
            (ospath_relpath (file_path_of folder d f) folder)], true) := by
  simp [upload_to_oci, uploadWalk, h]

/-- Witness for the amended C7. -/
theorem claim_C7_amended_witness :
    upload_to_oci true (fun _ _ => false) ⟨true, ["f"]⟩ [([], "a.pdf"), ([], "b.pdf")]
      = ([UEvent.bucketCheck,
          UEvent.printUploading (file_path_of ⟨true, ["f"]⟩ [] "a.pdf")
            (ospath_relpath (file_path_of ⟨true, ["f"]⟩ [] "a.pdf") ⟨true, ["f"]⟩),
          UEvent.putObject (file_path_of ⟨true, ["f"]⟩ [] "a.pdf")
            (ospath_relpath (file_path_of ⟨true, ["f"]⟩ [] "a.pdf") ⟨true, ["f"]⟩)], true) :=
  claim_C7_amended_upload_failure_aborts (fun _ _ => false) ⟨true, ["f"]⟩ [] "a.pdf"
    [([], "b.pdf")] rfl

theorem uploadWalk_putObject_mem (uploadOk : List String → String → Bool) (folder : PyPath) :
    ∀ (files : List (List String × String)) (fp objName : PyPath),
      UEvent.putObject fp objName ∈ (uploadWalk uploadOk folder files).1 →
        objName = ospath_relpath fp folder
        ∧ ∃ d f, (d, f) ∈ files ∧ fp = file_path_of folder d f := by
  intro files
  induction files with
  | nil => intro fp objName h; simp [uploadWalk] at h
  | cons p rest ih =>
    intro fp objName h
    obtain ⟨d, f⟩ := p
    cases hok : uploadOk d f with
    | true =>
      have e1 : (uploadWalk uploadOk folder ((d, f) :: rest)).1
          = UEvent.printUploading (file_path_of folder d f)
              (ospath_relpath (file_path_of folder d f) folder)
            :: UEvent.putObject (file_path_of folder d f)
              (ospath_relpath (file_path_of folder d f) folder)
            :: (uploadWalk uploadOk folder rest).1 := by
        simp [uploadWalk, hok]
      rw [e1] at h
      simp only [List.mem_cons] at h
      rcases h with h | h | h
      · exact absurd h (by simp)
      · obtain ⟨h1, h2⟩ := UEvent.putObject.inj h
        subst h1; subst h2
        exact ⟨rfl, d, f, by simp, rfl⟩
      · obtain ⟨g1, d', f', hm, hfp⟩ := ih fp objName h
        exact ⟨g1, d', f', by simp [hm], hfp⟩
    | false =>
      have e1 : (uploadWalk uploadOk folder ((d, f) :: rest)).1
          = [UEvent.printUploading (file_path_of folder d f)
              (ospath_relpath (file_path_of folder d f) folder),
             UEvent.putObject (file_path_of folder d f)
              (ospath_relpath (file_path_of folder d f) folder)] := by
        simp [uploadWalk, hok]
      rw [e1] at h
      simp only [List.mem_cons, List.not_mem_nil, or_false] at h
      rcases h with h | h
      · exact absurd h (by simp)
      · obtain ⟨h1, h2⟩ := UEvent.putObject.inj h
        subst h1; subst h2
        exact ⟨rfl, d, f, by simp, rfl⟩

/-- C8: every upload call of `upload_to_oci` passes as remote object key
exactly the file's path relative to the folder root; the uploaded file is
one discovered under the root and its key preserves the folder
structure. -/
theorem claim_C8_object_key_equals_relative_path (bucketOk : Bool)
    (uploadOk : List String → String → Bool) (folder : PyPath)
    (files : List (List String × String)) (fp objName : PyPath)
    (h : UEvent.putObject fp objName ∈ (upload_to_oci bucketOk uploadOk folder files).1) :
    objName = ospath_relpath fp folder
    ∧ ∃ d f, (d, f) ∈ files ∧ fp = file_path_of folder d f
        ∧ objName = ⟨false, d ++ [f]⟩ := by
  cases bucketOk with
  | false => simp [upload_to_oci] at h
  | true =>
    have h' : UEvent.putObject fp objName ∈ (uploadWalk uploadOk folder files).1 := by
      simpa [upload_to_oci] using h
    obtain ⟨g1, d, f, hm, hfp⟩ := uploadWalk_putObject_mem uploadOk folder files fp objName h'
    refine ⟨g1, d, f, hm, hfp, ?_⟩
    rw [g1, hfp, rel_path_of_file]

/-- Witness for C8 at a concrete upload. -/
theorem claim_C8_witness :
    ⟨false, ["s", "x.pdf"]⟩ = ospath_relpath ⟨true, ["f", "s", "x.pdf"]⟩ ⟨true, ["f"]⟩
    ∧ ∃ d f, (d, f) ∈ [(["s"], "x.pdf")]
        ∧ (⟨true, ["f", "s", "x.pdf"]⟩ : PyPath) = file_path_of ⟨true, ["f"]⟩ d f
        ∧ (⟨false, ["s", "x.pdf"]⟩ : PyPath) = ⟨false, d ++ [f]⟩ :=
  claim_C8_object_key_equals_relative_path true (fun _ _ => true) ⟨true, ["f"]⟩
    [(["s"], "x.pdf")] ⟨true, ["f", "s", "x.pdf"]⟩ ⟨false, ["s", "x.pdf"]⟩ (by decide)

/-- C9: every archive move performed anywhere in a run moves the source to
the archive root joined with the file's input-relative path (for arbitrary
nesting depth), and the full destination directory is created (an earlier
`makedirs` of its dirname) before the move. -/
theorem claim_C9_archive_location (out_base pb : PyPath) (destExists : PyPath → Bool)
    (oks : List String → String → Nat → Bool) (input : PyPath)
    (files : List (List String × String)) (src dst rel : PyPath)
    (h : Event.moveFile src dst rel
        ∈ (convert_office_files_recursively out_base pb destExists oks input files).1) :
    rel = ospath_relpath src input
    ∧ dst = ospath_join pb rel
    ∧ (∃ d f, (d, f) ∈ files ∧ src = file_path_of input d f ∧ rel = ⟨false, d ++ [f]⟩)
    ∧ List.Sublist [Event.makedirs (ospath_dirname dst), Event.moveFile src dst rel]
        (convert_office_files_recursively out_base pb destExists oks input files).1 := by
  obtain ⟨g1, g2, g3, g4⟩ := run_move_mem out_base pb destExists oks input files src dst rel h
  obtain ⟨d, f, hm, hs⟩ := g3
  refine ⟨g1, g2, ⟨d, f, hm, hs, ?_⟩, g4⟩
  rw [g1, hs, rel_path_of_file]

/-- Witness for C9: a run over one nested file whose destination already
exists, so the skip branch archives it. -/
theorem claim_C9_witness :
    (⟨false, ["a", "r.docx"]⟩ : PyPath)
        = ospath_relpath ⟨true, ["in", "a", "r.docx"]⟩ ⟨true, ["in"]⟩
    ∧ (⟨true, ["arch", "a", "r.docx"]⟩ : PyPath)
        = ospath_join ⟨true, ["arch"]⟩ ⟨false, ["a", "r.docx"]⟩
    ∧ (∃ d f, (d, f) ∈ [(["a"], "r.docx")]
        ∧ (⟨true, ["in", "a", "r.docx"]⟩ : PyPath) = file_path_of ⟨true, ["in"]⟩ d f
        ∧ (⟨false, ["a", "r.docx"]⟩ : PyPath) = ⟨false, d ++ [f]⟩)
    ∧ List.Sublist
        [Event.makedirs (ospath_dirname ⟨true, ["arch", "a", "r.docx"]⟩),
         Event.moveFile ⟨true, ["in", "a", "r.docx"]⟩ ⟨true, ["arch", "a", "r.docx"]⟩
           ⟨false, ["a", "r.docx"]⟩]
        (convert_office_files_recursively ⟨true, ["out"]⟩ ⟨true, ["arch"]⟩ (fun _ => true)
          (fun _ _ _ => true) ⟨true, ["in"]⟩ [(["a"], "r.docx")]).1 :=
  claim_C9_archive_location ⟨true, ["out"]⟩ ⟨true, ["arch"]⟩ (fun _ => true)
    (fun _ _ _ => true) ⟨true, ["in"]⟩ [(["a"], "r.docx")] ⟨true, ["in", "a", "r.docx"]⟩
    ⟨true, ["arch", "a", "r.docx"]⟩ ⟨false, ["a", "r.docx"]⟩ (by decide)
